import Mathlib

/-!
Verification of the ViralTube-Agent pipeline orchestrator and compositor.

Shallow embedding of the pipeline orchestration engine (`src/App.tsx`), the
retry wrapper and media generation services (`src/services/gemini.ts`), the
compositor (`src/services/renderer.ts`), and the curated topic picker
(`src/services/ContentManager.ts`). Pure logic is translated function by
function; JavaScript strings become Lean `String`, JS numbers used for
timeline arithmetic become `ℚ`, nullable values become `Option`, and the
asynchronous call results each stage awaits become explicit parameters
(an oracle giving the outcome of the n-th call).
-/

namespace ViralTube

/-! ## String utilities

`String.prototype.includes` and `String.prototype.toLowerCase` as used by the
retry wrapper's error-message classification. Error messages from the APIs are
ASCII, so per-character `Char.toLower` matches JS `toLowerCase`. -/

/-- Lowercase a string character by character (JS `msg.toLowerCase()`). -/
def lowerStr (s : String) : String :=
  String.mk (s.data.map Char.toLower)

/-- Holds when `pat` occurs at the start of `cs`. -/
def startsWithChars : List Char → List Char → Bool
  | [], _ => true
  | _ :: _, [] => false
  | p :: ps, c :: cs => p == c && startsWithChars ps cs

/-- Holds when `pat` occurs somewhere in the character list. -/
def occursChars (pat : List Char) : List Char → Bool
  | [] => startsWithChars pat []
  | c :: cs => startsWithChars pat (c :: cs) || occursChars pat cs

/-- JS `s.includes(pat)`. -/
def strIncludes (s pat : String) : Bool :=
  occursChars pat.data s.data

/-! ## Data model (`src/types.ts`) -/

/-- The `AgentStatus` enum. -/
inductive AgentStatus
  | IDLE
  | RESEARCHING
  | SCRIPTING
  | GENERATING_ASSETS
  | REVIEW
  | CONNECTING_YOUTUBE
  | RENDERING
  | UPLOADING
  | COMPLETED
deriving DecidableEq, Repr

/-- The `TrendTopic` interface. Scores are numeric; the discovery prompt asks for
integers 85-99, so `Int` models them. -/
structure TrendTopic where
  id : String
  headline : String
  category : String
  viralityScore : Int
  description : String
  sources : List String
deriving DecidableEq, Repr

/-- The `ScriptData` interface. -/
structure ScriptData where
  title : String
  thumbnailText : String
  description : String
  tags : List String
  fullScriptContent : String
  fullScriptOutline : List String
  hook : String
deriving DecidableEq, Repr

/-- The `GeneratedAssets` interface. -/
structure GeneratedAssets where
  thumbnailUrl : Option String
  thumbnailVariants : List String
  videoUrl : Option String
  audioUrl : Option String
  storyboardUrls : List String
deriving DecidableEq, Repr

/-- Log entry severity (`AgentLog.type`). -/
inductive LogType
  | info
  | success
  | error
  | thinking
deriving DecidableEq, Repr

/-- An `AgentLog` entry (id/timestamp omitted: they are fresh random/clock values
irrelevant to the control flow). -/
structure AgentLog where
  message : String
  type : LogType
deriving DecidableEq, Repr

/-- JS truthiness of a nullable string (`null` and `""` are falsy). -/
def truthyStr : Option String → Bool
  | none => false
  | some s => !s.isEmpty

/-! ## RetryPolicy (`withRetry` in `src/services/gemini.ts`)

The wrapped async operation is modelled as an oracle `op : ℕ → OpResult α`
giving the outcome of its n-th invocation (0-indexed). The trace records the
final outcome, how many times `fn` was invoked, the backoff sleeps performed
(in ms, in order), and how many times the interactive key-selection hook
(`window.aistudio.openSelectKey`) ran. -/

/-- Outcome of one invocation of the wrapped operation: resolve with a value
or reject with an error whose `message` is the string. -/
inductive OpResult (α : Type) where
  | ok (a : α)
  | err (msg : String)
deriving DecidableEq, Repr

/-- Observable trace of one `withRetry` run. -/
structure RetryTrace (α : Type) where
  result : OpResult α
  calls : ℕ
  delays : List ℕ
  hookCalls : ℕ
deriving DecidableEq, Repr

/-- Transient-error classification: `isTransient` in `withRetry`
(on the lowercased message). -/
def isTransientMsg (m : String) : Bool :=
  strIncludes m "503" || strIncludes m "overloaded" || strIncludes m "429" ||
  strIncludes m "quota" || strIncludes m "fetch" || strIncludes m "load failed" ||
  strIncludes m "network error"

/-- The "invalid credential" signature checked before transient classification. -/
def isEntityNotFoundMsg (m : String) : Bool :=
  strIncludes m "requested entity was not found"

/-- The loop body of `withRetry`: `fuel` is the number of loop iterations left
(`retries - i`), `i` the iteration counter, `n` the number of invocations of
`fn` so far, `delays` the sleeps performed so far, `lastErr` the last caught
error message. On the entity-not-found signature with the hook available, the
hook runs and `fn` is called once more with its result returned directly
(`return await fn()` inside the catch block: a rejection there propagates
uncaught). A transient error sleeps `(i+1)*3000` ms and continues; any other
error is rethrown at once. An exhausted loop rethrows the last error. -/
def withRetryGo {α : Type} (op : ℕ → OpResult α) (hookAvailable : Bool) :
    ℕ → ℕ → ℕ → List ℕ → Option String → RetryTrace α
  | 0, _, n, delays, lastErr => ⟨.err (lastErr.getD "undefined"), n, delays, 0⟩
  | fuel + 1, i, n, delays, _ =>
    match op n with
    | .ok a => ⟨.ok a, n + 1, delays, 0⟩
    | .err msg =>
      if isEntityNotFoundMsg (lowerStr msg) && hookAvailable then
        ⟨op (n + 1), n + 2, delays, 1⟩
      else if isTransientMsg (lowerStr msg) then
        withRetryGo op hookAvailable fuel (i + 1) (n + 1)
          (delays ++ [(i + 1) * 3000]) (some msg)
      else
        ⟨.err msg, n + 1, delays, 0⟩

/-- The wrapper `withRetry(fn, retries)`. -/
def withRetry {α : Type} (op : ℕ → OpResult α) (hookAvailable : Bool)
    (retries : ℕ) : RetryTrace α :=
  withRetryGo op hookAvailable retries 0 0 [] none

/-- The default retry budget (`retries = 3`). -/
def defaultRetries : ℕ := 3

/-- The reduced per-frame budget used by `generateStoryboardImages`. -/
def storyboardFrameRetries : ℕ := 2

/-- The sleeps a run starting at iteration 0 will have performed after `f`
transient failures: `3000, 6000, …` ms. -/
def backoffDelays (f : ℕ) : List ℕ :=
  (List.range f).map (fun j => (j + 1) * 3000)

/-- The n-th invocation rejects with a transient, non-credential message. -/
def TransientErrAt {α : Type} (op : ℕ → OpResult α) (j : ℕ) : Prop :=
  ∃ msg, op j = .err msg ∧ isTransientMsg (lowerStr msg) = true ∧
    isEntityNotFoundMsg (lowerStr msg) = false

/-! ## App component state (`src/App.tsx`)

The React state hooks and their synchronously-written ref shadows. A React
state setter queues an asynchronous update; the `assetsRef`/`scriptDataRef`
mutations are immediate. The model applies both at once, which is sound for
the sequential transitions proved here since every decision read in the
source goes through the refs or an explicitly passed value. -/

/-- The empty `GeneratedAssets` object the app starts from and resets to. -/
def emptyAssets : GeneratedAssets :=
  { thumbnailUrl := none, thumbnailVariants := [], videoUrl := none,
    audioUrl := none, storyboardUrls := [] }

/-- The `App` component's state relevant to orchestration. -/
structure AppState where
  status : AgentStatus
  logs : List AgentLog
  currentTopic : Option TrendTopic
  scriptData : Option ScriptData
  assets : GeneratedAssets
  uploadedVideoId : Option String
  uploadProgress : ℕ
  assetsRef : GeneratedAssets
  scriptDataRef : Option ScriptData
  ytToken : Option String
  autoLoop : Bool
deriving DecidableEq, Repr

/-- The helper `addLog(message, type)`: append one entry. -/
def addLogTo (s : AppState) (msg : String) (t : LogType) : AppState :=
  { s with logs := s.logs ++ [⟨msg, t⟩] }

/-- The unconditional opening of `startAgent`: status becomes RESEARCHING and
topic, script, assets, logs, upload bookkeeping and both refs are cleared. -/
def startAgentReset (s : AppState) : AppState :=
  { s with
    status := .RESEARCHING
    logs := []
    scriptData := none
    assets := emptyAssets
    currentTopic := none
    uploadedVideoId := none
    uploadProgress := 0
    assetsRef := emptyAssets
    scriptDataRef := none }

/-- The start button's `disabled` predicate, negated: the button is enabled
exactly in IDLE and COMPLETED. -/
def startButtonEnabled (st : AgentStatus) : Bool :=
  st == .IDLE || st == .COMPLETED

/-- Starting through the header button: a disabled button does nothing. -/
def startViaButton (s : AppState) : AppState :=
  if startButtonEnabled s.status then startAgentReset s else s

/-- Starting through the 10-second auto-restart timer scheduled at COMPLETED
(`setTimeout(() => startAgent(), 10000)`): `startAgent` is invoked with no
guard of any kind. -/
def startViaAutoRestartTimer (s : AppState) : AppState :=
  startAgentReset s

/-! ## performRealUpload (`src/App.tsx`) and the compositor guard -/

/-- JS `a || b` on two nullable values of the same object type. -/
def jsOr {α : Type} : Option α → Option α → Option α
  | some a, _ => some a
  | none, b => b

/-- Resolution `targetAssets = explicitAssets || assetsRef.current || assets`
(`assetsRef.current` is always an object, hence truthy). -/
def uploadTargetAssets (s : AppState) (explicitAssets : Option GeneratedAssets) :
    GeneratedAssets :=
  (jsOr explicitAssets (some s.assetsRef)).getD s.assets

/-- Resolution `targetScript = explicitScript || scriptDataRef.current || scriptData`. -/
def uploadTargetScript (s : AppState) (explicitScript : Option ScriptData) :
    Option ScriptData :=
  jsOr explicitScript (jsOr s.scriptDataRef s.scriptData)

/-- What `performRealUpload` did before any awaiting: either it rejected at
the guard, or it entered the render phase invoking the compositor on the
resolved payload. -/
inductive UploadOutcome
  | rejected
  | invokedRender (assets : GeneratedAssets) (script : ScriptData)
deriving DecidableEq, Repr

/-- State and outcome of the synchronous head of `performRealUpload`. -/
structure UploadStep where
  state : AppState
  outcome : UploadOutcome
deriving DecidableEq, Repr

/-- The guard and render entry of `performRealUpload`: if
`!targetAssets?.audioUrl || !targetScript`, log an error, set REVIEW and
return; otherwise set RENDERING, log, and invoke
`RendererService.renderFinalVideo(targetAssets, targetScript, …)`. -/
def performRealUploadStep (s : AppState) (explicitAssets : Option GeneratedAssets)
    (explicitScript : Option ScriptData) : UploadStep :=
  match uploadTargetScript s explicitScript,
        truthyStr (uploadTargetAssets s explicitAssets).audioUrl with
  | some scr, true =>
    ⟨addLogTo { s with status := .RENDERING } "Rendering Video (English)..." .info,
     .invokedRender (uploadTargetAssets s explicitAssets) scr⟩
  | _, _ =>
    ⟨{ addLogTo s "Missing essential assets." .error with status := .REVIEW },
     .rejected⟩

/-- The compositor's own opening guard (`renderFinalVideo` throws
`"Missing audio asset for rendering"` before any fetch when
`!assets.audioUrl`). -/
def renderFinalVideoGuard (assets : GeneratedAssets) : Except String Unit :=
  if truthyStr assets.audioUrl then .ok () else .error "Missing audio asset for rendering"

/-! ## Topic selection in the Researching stage (`startAgent`)

The autonomous path runs
`topics.sort((a, b) => b.viralityScore - a.viralityScore)[0]`. ECMAScript
`Array.prototype.sort` is required to be stable, and with this comparator it
orders by strictly greater score first, preserving source order on ties; any
stable descending insertion embeds it. The manual-override path runs
`const selected = topics[0]`. -/

/-- Stable insertion for descending `viralityScore`: an element inserted later
(i.e. earlier in the source array) goes before every element of equal score. -/
def insertDesc (a : TrendTopic) : List TrendTopic → List TrendTopic
  | [] => [a]
  | b :: bs =>
    if b.viralityScore ≤ a.viralityScore then a :: b :: bs
    else b :: insertDesc a bs

/-- The stable descending sort performed by
`topics.sort((a, b) => b.viralityScore - a.viralityScore)`. -/
def sortByViralityDesc (l : List TrendTopic) : List TrendTopic :=
  l.foldr insertDesc []

/-- Autonomous selection: head of the sorted candidate list. -/
def selectAutoTopic (topics : List TrendTopic) : Option TrendTopic :=
  (sortByViralityDesc topics).head?

/-- Manual-override selection (`topics[0]` when `topics.length > 0`). -/
def selectManualTopic (topics : List TrendTopic) : Option TrendTopic :=
  topics.head?

/-- The first maximum of `x :: ys`: take the best of the rest only when it is
strictly better, so ties resolve to the earlier element. -/
def pickMax (x : TrendTopic) : List TrendTopic → TrendTopic
  | [] => x
  | y :: ys =>
    if x.viralityScore < (pickMax y ys).viralityScore then pickMax y ys else x

/-! ## Researching-stage control flow around the discovery calls -/

/-- Outcome of an awaited external call. -/
inductive CallOutcome (α : Type) where
  | ok (a : α)
  | fail (msg : String)
deriving DecidableEq, Repr

/-- What the Researching stage decides to do next. -/
inductive ResearchOutcome
  | proceedScripting (t : TrendTopic)
  | abortIdle
  | rescheduleResearch (delayMs : ℕ)
deriving DecidableEq, Repr

/-- The autonomous research tail of `startAgent`: a rejection of the discovery
call is caught, logged and the status set to IDLE; an empty candidate list
logs and reschedules `startAgent` in 30 s; otherwise the sorted head is
selected and `generateContent` is entered. -/
def autoResearchStep (result : CallOutcome (List TrendTopic)) : ResearchOutcome :=
  match result with
  | .fail _ => .abortIdle
  | .ok topics =>
    match selectAutoTopic topics with
    | some t => .proceedScripting t
    | none => .rescheduleResearch 30000

/-- The whole Researching decision: when the manual override is active
(auto-loop off and a trimmed manual topic present), a successful non-empty
forced-concept call selects `topics[0]`; an empty result or a caught failure
falls through to the autonomous strategy instead of aborting. -/
def researchStep (manualOverride : Bool)
    (manualResult : CallOutcome (List TrendTopic))
    (autoResult : CallOutcome (List TrendTopic)) : ResearchOutcome :=
  if manualOverride then
    match manualResult with
    | .ok topics =>
      match selectManualTopic topics with
      | some t => .proceedScripting t
      | none => autoResearchStep autoResult
    | .fail _ => autoResearchStep autoResult
  else autoResearchStep autoResult

/-! ## Storyboard shortfall rule (`generateMediaAssets` and
`generateStoryboardImages`) -/

/-- The constant `targetImageCount = 20`. -/
def targetImageCount : ℕ := 20

/-- The service `generateStoryboardImages` caps its outline argument:
`const scenes = outline.slice(0, 40)`; one generation request is issued per
scene. -/
def storyboardScenes (outline : List String) : List String :=
  outline.take 40

/-- The scenes actually sent to image generation by the storyboard sub-stage:
nothing when the supplied images reach the target, else the outline truncated
to the shortfall (`script.fullScriptOutline.slice(0, neededCount)`), further
capped at 40 inside `generateStoryboardImages`. -/
def storyboardRequestedScenes (userImages : List String) (outline : List String) :
    List String :=
  if userImages.length < targetImageCount then
    storyboardScenes (outline.take (targetImageCount - userImages.length))
  else []

/-- The final `storyboardUrls`: supplied custom images followed by whatever
the generation calls returned (`storyboards = [...storyboards, ...aiStoryboards]`). -/
def storyboardFinal (userImages : List String) (generated : List String) :
    List String :=
  if userImages.length < targetImageCount then userImages ++ generated
  else userImages

/-- Per-frame results inside `generateStoryboardImages`: a failed or empty
frame yields no entry (`results.forEach(img => img && images.push(img))`). -/
def storyboardCollect (results : List (Option String)) : List String :=
  results.filterMap id

/-! ## Compositor timeline (`renderFinalVideo` in `src/services/renderer.ts`)

Timeline arithmetic runs on JS numbers; the values involved are fixed small
constants and a decoded duration, modelled exactly in `ℚ`. -/

/-- The constant `introDuration = 6` (seconds). -/
def introDuration : ℚ := 6

/-- The slot length `slideDuration`: `images.length > 0 ? Math.max(4, slideshowDuration /
images.length) : 8`, where `slideshowDuration = D - introDuration` and `D` is
the decoded audio duration in seconds. -/
def slideDuration (D : ℚ) (imageCount : ℕ) : ℚ :=
  if 0 < imageCount then max 4 ((D - introDuration) / imageCount) else 8

/-- The clamped slideshow index: `Math.floor(relativeTime / slideDuration)`,
set to `images.length - 1` once it reaches `images.length`. The result is an
`ℤ` as in JS (it is `-1` when no images exist). -/
def slideshowIndex (imageCount : ℕ) (sd : ℚ) (relativeTime : ℚ) : ℤ :=
  if (imageCount : ℤ) ≤ ⌊relativeTime / sd⌋ then (imageCount : ℤ) - 1
  else ⌊relativeTime / sd⌋

/-- The storyboard index displayed at overall elapsed time `seconds`
(only meaningful past the intro phase): `relativeTime = seconds -
introDuration`. -/
def displayedIndex (D : ℚ) (imageCount : ℕ) (seconds : ℚ) : ℤ :=
  slideshowIndex imageCount (slideDuration D imageCount) (seconds - introDuration)

/-! ## Intro-phase drawing (`renderFinalVideo` render loop, `seconds <
introDuration` branch) -/

/-- A destination rectangle handed to `ctx.drawImage`. -/
structure DrawRect where
  x : ℚ
  y : ℚ
  w : ℚ
  h : ℚ
deriving DecidableEq, Repr

/-- The canvas width, `canvas.width = 1280`. -/
def canvasW : ℚ := 1280

/-- The canvas height, `canvas.height = 720`. -/
def canvasH : ℚ := 720

/-- The cover-fit rectangle computed for a still of intrinsic size
`iw × ih`: `scale = Math.max(canvasW/iw, canvasH/ih)`, centered, cropping to
fill the frame. -/
def coverFitRect (iw ih : ℚ) : DrawRect :=
  { x := canvasW / 2 - iw / 2 * max (canvasW / iw) (canvasH / ih)
    y := canvasH / 2 - ih / 2 * max (canvasW / iw) (canvasH / ih)
    w := iw * max (canvasW / iw) (canvasH / ih)
    h := ih * max (canvasW / iw) (canvasH / ih) }

/-- The intro video element state the render loop reads. -/
structure VideoState where
  ended : Bool
deriving DecidableEq, Repr

/-- Intrinsic dimensions of a loaded still image. -/
structure ImgDim where
  width : ℚ
  height : ℚ
deriving DecidableEq, Repr

/-- What one intro-phase frame draws over the black background. -/
inductive IntroDraw
  | clip (r : DrawRect)
  | thumb (r : DrawRect)
  | background
deriving DecidableEq, Repr

/-- The thumbnail fallback branch (`else if (thumbnailImg)`): cover-fit. -/
def thumbFallbackDraw : Option ImgDim → IntroDraw
  | some img => .thumb (coverFitRect img.width img.height)
  | none => .background

/-- One intro-phase frame: `if (video && !video.ended)` the clip is drawn
with `ctx.drawImage(video, 0, 0, canvas.width, canvas.height)` — a stretch of
the whole frame onto the full canvas — else the thumbnail cover-fit, else
nothing. -/
def introFrameDraw (video : Option VideoState) (thumbnailImg : Option ImgDim) :
    IntroDraw :=
  match video with
  | some v => if v.ended then thumbFallbackDraw thumbnailImg
              else .clip { x := 0, y := 0, w := canvasW, h := canvasH }
  | none => thumbFallbackDraw thumbnailImg

/-! ## Stage-failure handlers (`src/App.tsx` catch blocks) -/

/-- The final catch of `startAgent`: log `Research failed: …`, status → IDLE. -/
def researchCatchHandler (s : AppState) (errMsg : String) : AppState :=
  { addLogTo s ("Research failed: " ++ errMsg) .error with status := .IDLE }

/-- The catch of `generateContent`: log `Scripting failed: …`, status → IDLE. -/
def scriptingCatchHandler (s : AppState) (errMsg : String) : AppState :=
  { addLogTo s ("Scripting failed: " ++ errMsg) .error with status := .IDLE }

/-- The outer catch of `generateMediaAssets`: log, status → REVIEW. -/
def assetsCatchHandler (s : AppState) (errMsg : String) : AppState :=
  { addLogTo s ("Asset generation failed: " ++ errMsg) .error with status := .REVIEW }

/-- The inner intro-video catch: log and continue with `videoUrl` null; the
status is untouched. -/
def introVideoCatchHandler (s : AppState) (errMsg : String) : AppState :=
  let s1 := addLogTo s
    ("Veo generation failed (" ++ errMsg ++ "). Using thumbnail fallback.") .error
  { s1 with assets := { s1.assets with videoUrl := none },
            assetsRef := { s1.assetsRef with videoUrl := none } }

/-- The catch of `performRealUpload` (render and upload failures): log
`Process failed: …`; when the message includes `"401"` or `"auth"`, log again
and clear the stored token (`setYtToken(null)`); status → REVIEW. -/
def uploadCatchHandler (s : AppState) (errMsg : String) : AppState :=
  if strIncludes errMsg "401" || strIncludes errMsg "auth" then
    { addLogTo (addLogTo s ("Process failed: " ++ errMsg) .error)
        "Authentication expired. Please re-link YouTube." .error with
      ytToken := none, status := .REVIEW }
  else
    { addLogTo s ("Process failed: " ++ errMsg) .error with status := .REVIEW }

/-! ## Curated topic picker (`src/services/ContentManager.ts`)

`CONTENT_DATABASE` lives in a data module outside the orchestration source;
the picker logic is parametric in it, so the database and the persisted
history are arguments. `Math.floor(Math.random() * len)` is an arbitrary
index `< len`, passed in as the oracle `r`. -/

/-- An entry of `CONTENT_DATABASE` (`id` is all the picker reads; `concept`
is what the caller consumes). -/
structure ContentTopic where
  id : String
  concept : String
deriving DecidableEq, Repr

/-- Returned topic together with the history persisted to `localStorage`. -/
structure TopicPickResult where
  topic : Option ContentTopic
  newHistory : List String
deriving DecidableEq, Repr

/-- The topics whose ids are not in the used-history. -/
def availableTopics (db : List ContentTopic) (usedIds : List String) :
    List ContentTopic :=
  db.filter (fun t => !(usedIds.contains t.id))

/-- The picker `ContentManager.getUnusedTopic`: if every topic is used, reset the history
to `[]` and return a random topic of the whole database (not marked used);
otherwise return a random unused topic and append its id to the history. -/
def getUnusedTopic (db : List ContentTopic) (usedIds : List String) (r : ℕ) :
    TopicPickResult :=
  if (availableTopics db usedIds).length = 0 then
    { topic := db.get? r, newHistory := [] }
  else
    match (availableTopics db usedIds).get? r with
    | some sel => { topic := some sel, newHistory := usedIds ++ [sel.id] }
    | none => { topic := none, newHistory := usedIds }

/-! ## Sample data for witnesses and counterexamples -/

/-- A concrete script. -/
def sampleScript : ScriptData :=
  { title := "T", thumbnailText := "TT", description := "D", tags := ["tag"],
    fullScriptContent := "content", fullScriptOutline := ["scene one"],
    hook := "the hook" }

/-- Assets with a voiceover present. -/
def sampleAssets : GeneratedAssets :=
  { emptyAssets with audioUrl := some "blob:audio-1" }

/-- A mid-pipeline app state (uploading, with history in the log). -/
def sampleUploadingState : AppState :=
  { status := .UPLOADING
    logs := [⟨"All assets generated.", .success⟩]
    currentTopic := none
    scriptData := some sampleScript
    assets := sampleAssets
    uploadedVideoId := none
    uploadProgress := 40
    assetsRef := sampleAssets
    scriptDataRef := some sampleScript
    ytToken := some "tok"
    autoLoop := true }

/-- An idle app state with empty everything. -/
def sampleIdleState : AppState :=
  { status := .IDLE, logs := [], currentTopic := none, scriptData := none,
    assets := emptyAssets, uploadedVideoId := none, uploadProgress := 0,
    assetsRef := emptyAssets, scriptDataRef := none, ytToken := none,
    autoLoop := true }

/-- Concrete two-topic database. -/
def sampleDb : List ContentTopic :=
  [⟨"t1", "Ashoka's lost edicts"⟩, ⟨"t2", "Kakatiya water science"⟩]

/-- A concrete discovered topic. -/
def sampleTopic : TrendTopic :=
  { id := "id1", headline := "headline", category := "History",
    viralityScore := 92, description := "desc", sources := [] }

/-- A candidate with a low score, listed first. -/
def lowTopic : TrendTopic :=
  { id := "a", headline := "low", category := "Cat", viralityScore := 10,
    description := "d", sources := [] }

/-- A candidate with a high score, listed second. -/
def highTopic : TrendTopic :=
  { id := "b", headline := "high", category := "Cat", viralityScore := 90,
    description := "d", sources := [] }

/-- An operation that fails transiently twice and then succeeds. -/
def opFailTwice : ℕ → OpResult ℕ
  | 0 => .err "Error: 503 Service Unavailable"
  | 1 => .err "quota exceeded for model"
  | _ => .ok 42

/-- An operation whose first failure carries the credential-invalid signature
and whose forced extra attempt fails transiently; a third call would succeed. -/
def enfOp : ℕ → OpResult ℕ
  | 0 => .err "Requested entity was not found."
  | 1 => .err "503 Service overloaded"
  | _ => .ok 7

/-! ## Helper lemmas -/

theorem truthyStr_ne_none {o : Option String} (h : truthyStr o = true) : o ≠ none := by
  cases o with
  | none => simp [truthyStr] at h
  | some s => exact fun hc => Option.noConfusion hc

theorem renderFinalVideoGuard_ok {a : GeneratedAssets}
    (h : truthyStr a.audioUrl = true) : renderFinalVideoGuard a = .ok () := by
  simp [renderFinalVideoGuard, h]

/-! ## C1 — compositor precondition -/

/-- C1: `renderFinalVideo` is only invoked by `performRealUpload` when the
resolved asset payload has a truthy (hence non-null) `audioUrl` and the
resolved script is non-null; with a null audio url or a null script the call
is rejected before anything is fetched: an error is logged and the status is
set to REVIEW. The compositor's own opening guard also passes on every
payload that reaches it. -/
theorem C1_compositor_invocation_guard (s : AppState)
    (ea : Option GeneratedAssets) (es : Option ScriptData) :
    (∀ a scr, (performRealUploadStep s ea es).outcome = .invokedRender a scr →
      a.audioUrl ≠ none ∧ renderFinalVideoGuard a = .ok () ∧
      uploadTargetScript s es = some scr) ∧
    ((uploadTargetAssets s ea).audioUrl = none ∨ uploadTargetScript s es = none →
      (performRealUploadStep s ea es).outcome = .rejected ∧
      (performRealUploadStep s ea es).state.status = .REVIEW ∧
      (performRealUploadStep s ea es).state.logs =
        s.logs ++ [⟨"Missing essential assets.", .error⟩]) := by
  constructor
  · intro a scr h
    unfold performRealUploadStep at h
    rcases hts : uploadTargetScript s es with _ | scr'
    · rw [hts] at h; simp at h
    · rw [hts] at h
      rcases hta : truthyStr (uploadTargetAssets s ea).audioUrl with _ | _
      · rw [hta] at h; simp at h
      · rw [hta] at h
        simp only [UploadOutcome.invokedRender.injEq] at h
        obtain ⟨rfl, rfl⟩ := h
        exact ⟨truthyStr_ne_none hta, renderFinalVideoGuard_ok hta, rfl⟩
  · intro h
    have hguard : ¬(uploadTargetScript s es ≠ none ∧
        truthyStr (uploadTargetAssets s ea).audioUrl = true) := by
      rintro ⟨hscr, hta⟩
      rcases h with h | h
      · rcases hta' : (uploadTargetAssets s ea).audioUrl with _ | v
        · simp [truthyStr, hta'] at hta
        · exact Option.noConfusion (hta' ▸ h)
      · exact hscr h
    unfold performRealUploadStep
    rcases hts : uploadTargetScript s es with _ | scr' <;>
      rcases hta : truthyStr (uploadTargetAssets s ea).audioUrl with _ | _
    · exact ⟨rfl, rfl, by simp [addLogTo]⟩
    · exact ⟨rfl, rfl, by simp [addLogTo]⟩
    · exact ⟨rfl, rfl, by simp [addLogTo]⟩
    · exact absurd ⟨by rw [hts]; exact fun hc => Option.noConfusion hc, hta⟩ hguard

/-- C1 witness: with both refs empty and no explicit payload the upload is
rejected into REVIEW with the error logged. -/
theorem C1_witness :
    (performRealUploadStep sampleIdleState none none).outcome = .rejected ∧
    (performRealUploadStep sampleIdleState none none).state.status = .REVIEW ∧
    (performRealUploadStep sampleIdleState none none).state.logs =
      sampleIdleState.logs ++ [⟨"Missing essential assets.", .error⟩] :=
  (C1_compositor_invocation_guard sampleIdleState none none).2 (Or.inl rfl)

/-! ## C2 — start guard and reset -/

/-- C2 counterexample: the delayed auto-restart path invokes `startAgent`
with no guard; fired while the stage is UPLOADING it is not a no-op (the run
is reset and a new one begins). -/
theorem C2_counterexample :
    sampleUploadingState.status = .UPLOADING ∧
    startViaAutoRestartTimer sampleUploadingState ≠ sampleUploadingState ∧
    (startViaAutoRestartTimer sampleUploadingState).status = .RESEARCHING := by
  refine ⟨rfl, ?_, rfl⟩
  decide

/-- C2 (amended): starting through the UI button while the stage is outside
{IDLE, COMPLETED} is a no-op (the button is disabled), and a button start
from IDLE or COMPLETED resets topic, script, assets and log; but the delayed
auto-restart scheduled at COMPLETED calls `startAgent` unconditionally, so it
resets and restarts regardless of the stage it fires in. Every start that
proceeds clears topic, script, assets, log and both ref shadows. -/
theorem C2_start_guard_and_reset (s : AppState) :
    (startButtonEnabled s.status = false → startViaButton s = s) ∧
    (startButtonEnabled s.status = true → startViaButton s = startAgentReset s) ∧
    startViaAutoRestartTimer s = startAgentReset s ∧
    ((startAgentReset s).status = .RESEARCHING ∧
     (startAgentReset s).logs = [] ∧
     (startAgentReset s).currentTopic = none ∧
     (startAgentReset s).scriptData = none ∧
     (startAgentReset s).assets = emptyAssets ∧
     (startAgentReset s).assetsRef = emptyAssets ∧
     (startAgentReset s).scriptDataRef = none) := by
  refine ⟨fun h => ?_, fun h => ?_, rfl, rfl, rfl, rfl, rfl, rfl, rfl, rfl⟩
  · simp [startViaButton, h]
  · simp [startViaButton, h]

/-- C2 witness: a button start from IDLE proceeds and resets; a button start
attempted from UPLOADING is rejected. -/
theorem C2_witness :
    startViaButton sampleIdleState = startAgentReset sampleIdleState ∧
    startViaButton sampleUploadingState = sampleUploadingState :=
  ⟨(C2_start_guard_and_reset sampleIdleState).2.1 rfl,
   (C2_start_guard_and_reset sampleUploadingState).1 rfl⟩

/-! ## C5 — storyboard shortfall -/

/-- C5 counterexample: with zero supplied images and a one-scene outline the
code requests a single image, not the `20 − 0 = 20` the claim demands: the
outline is truncated to the shortfall, so at most `outline.length` scenes are
ever requested. -/
theorem C5_counterexample :
    ([] : List String).length < targetImageCount ∧
    targetImageCount - ([] : List String).length = 20 ∧
    (storyboardRequestedScenes [] ["scene one"]).length = 1 ∧
    (storyboardRequestedScenes [] ["scene one"]).length ≠ 20 := by
  exact ⟨by decide, by decide, by decide, by decide⟩

/-- C5 (amended): with `k` supplied images, `k ≥ 20` issues zero generation
requests and keeps the supplied list; `k < 20` requests exactly
`min (20 − k, outline.length)` images (the shortfall, bounded by the script
outline actually available) and the final list is the supplied images
followed by the generated ones, in that order. -/
theorem C5_storyboard_shortfall (userImages outline generated : List String) :
    (targetImageCount ≤ userImages.length →
      storyboardRequestedScenes userImages outline = [] ∧
      storyboardFinal userImages generated = userImages) ∧
    (userImages.length < targetImageCount →
      (storyboardRequestedScenes userImages outline).length =
        min (targetImageCount - userImages.length) outline.length ∧
      storyboardFinal userImages generated = userImages ++ generated) := by
  constructor
  · intro h
    constructor
    · simp [storyboardRequestedScenes, Nat.not_lt.mpr h]
    · simp [storyboardFinal, Nat.not_lt.mpr h]
  · intro h
    constructor
    · simp only [storyboardRequestedScenes, storyboardScenes, if_pos h,
        List.length_take]
      simp only [targetImageCount] at h ⊢
      omega
    · simp [storyboardFinal, h]

/-- C5 witness: 3 supplied images and a 30-scene outline request exactly 17
scenes; 20 supplied images request none. -/
theorem C5_witness :
    (storyboardRequestedScenes (List.replicate 3 "u") (List.replicate 30 "s")).length =
      min (targetImageCount - 3) 30 ∧
    storyboardRequestedScenes (List.replicate 20 "u") (List.replicate 30 "s") = [] := by
  constructor
  · have h := (C5_storyboard_shortfall (List.replicate 3 "u")
      (List.replicate 30 "s") []).2 (by decide)
    simpa using h.1
  · exact ((C5_storyboard_shortfall (List.replicate 20 "u")
      (List.replicate 30 "s") []).1 (by decide)).1

/-! ## C6 — compositor slideshow timeline -/

/-- C6 counterexample: with decoded duration `D = 130 s` and 20 images the
slot duration is `6.2 s`, but at overall elapsed time `t = 60 s` the phase
time is `54 s` (not 40 s) and the displayed index is `⌊54/6.2⌋ = 8`, not 6. -/
theorem C6_counterexample :
    displayedIndex 130 20 60 = 8 ∧ displayedIndex 130 20 60 ≠ 6 := by
  have h1 : slideDuration 130 20 = 31 / 5 := by
    unfold slideDuration introDuration
    rw [if_pos (by norm_num)]
    norm_num
  have h2 : ((60 : ℚ) - introDuration) / (31 / 5) = 270 / 31 := by
    unfold introDuration; norm_num
  have h3 : ⌊(270 : ℚ) / 31⌋ = 8 := by
    rw [Int.floor_eq_iff]
    norm_num
  have h4 : displayedIndex 130 20 60 = 8 := by
    unfold displayedIndex slideshowIndex
    rw [h1, h2, h3]
    norm_num
  exact ⟨h4, by rw [h4]; decide⟩

/-- C6 (amended): the slot duration is `max(4, (D − 6)/imageCount)` with at
least one image (so never below 4 s) and a fixed 8 s with none; the displayed
index is `⌊relativeTime/slot⌋` clamped to the last index, i.e.
`min ⌊rel/slot⌋ (imageCount − 1)`; concretely for `D = 130`, `imageCount =
20` the slot is `31/5 = 6.2 s` and at overall elapsed `t = 60 s` (54 s into
the slideshow phase) the displayed index is 8. -/
theorem C6_slideshow_timeline :
    slideDuration 130 20 = 31 / 5 ∧
    displayedIndex 130 20 60 = 8 ∧
    (∀ (D : ℚ) (count : ℕ), 0 < count →
      slideDuration D count = max 4 ((D - introDuration) / count) ∧
      4 ≤ slideDuration D count) ∧
    (∀ (D : ℚ), slideDuration D 0 = 8) ∧
    (∀ (count : ℕ) (sd rel : ℚ), 0 < count →
      slideshowIndex count sd rel = min ⌊rel / sd⌋ ((count : ℤ) - 1)) := by
  refine ⟨?_, ?_, fun D count hc => ⟨?_, ?_⟩, fun D => ?_, fun count sd rel hc => ?_⟩
  · unfold slideDuration introDuration
    rw [if_pos (by norm_num)]
    norm_num
  · have h1 : slideDuration 130 20 = 31 / 5 := by
      unfold slideDuration introDuration
      rw [if_pos (by norm_num)]
      norm_num
    have h2 : ((60 : ℚ) - introDuration) / (31 / 5) = 270 / 31 := by
      unfold introDuration; norm_num
    have h3 : ⌊(270 : ℚ) / 31⌋ = 8 := by
      rw [Int.floor_eq_iff]
      norm_num
    unfold displayedIndex slideshowIndex
    rw [h1, h2, h3]
    norm_num
  · unfold slideDuration
    rw [if_pos hc]
  · unfold slideDuration
    rw [if_pos hc]
    exact le_max_left 4 _
  · rfl
  · unfold slideshowIndex
    rcases le_or_lt ((count : ℤ)) ⌊rel / sd⌋ with h | h
    · rw [if_pos h]
      omega
    · rw [if_neg (not_le.mpr h)]
      omega

/-- C6 witness: the clamp formula at 20 images, slot `31/5`, phase time 54 s
gives `min 8 19 = 8`, and the slot duration bound holds at `D = 130`. -/
theorem C6_witness :
    slideshowIndex 20 (31 / 5) 54 = min ⌊(54 : ℚ) / (31 / 5)⌋ ((20 : ℤ) - 1) ∧
    4 ≤ slideDuration 130 20 := by
  have h := C6_slideshow_timeline
  exact ⟨h.2.2.2.2 20 (31 / 5) 54 (by norm_num),
         (h.2.2.1 130 20 (by norm_num)).2⟩

/-! ## C9 — intro-phase drawing -/

/-- C9 counterexample: a present, not-yet-ended intro clip is drawn with
destination rectangle `(0, 0, 1280, 720)` — stretched onto the whole canvas —
whatever its frame size; for a 100×100 frame the cover-fit rectangle the
claim requires is `(0, −280, 1280, 1280)`, which is not what is drawn. -/
theorem C9_counterexample :
    introFrameDraw (some ⟨false⟩) (some ⟨100, 100⟩) =
      .clip ⟨0, 0, 1280, 720⟩ ∧
    coverFitRect 100 100 = ⟨0, -280, 1280, 1280⟩ ∧
    coverFitRect 100 100 ≠ ⟨0, 0, 1280, 720⟩ := by
  have hfit : coverFitRect 100 100 = ⟨0, -280, 1280, 1280⟩ := by
    unfold coverFitRect canvasW canvasH
    rw [max_eq_left (by norm_num)]
    simp only [DrawRect.mk.injEq]
    norm_num
  refine ⟨by decide, hfit, ?_⟩
  rw [hfit]
  decide

/-- C9 (amended): in an intro-phase frame, a present and not-ended intro clip
is drawn stretched onto the full canvas (destination `(0,0,1280,720)`, not
cover-fit); otherwise a present thumbnail is drawn cover-fit (scaled by
`max(canvasW/w, canvasH/h)`, centered, cropping); otherwise only the solid
background remains. -/
theorem C9_intro_frame_drawing :
    (∀ th : Option ImgDim, introFrameDraw (some ⟨false⟩) th =
      .clip ⟨0, 0, canvasW, canvasH⟩) ∧
    (∀ img : ImgDim, introFrameDraw (some ⟨true⟩) (some img) =
      .thumb (coverFitRect img.width img.height) ∧
      introFrameDraw none (some img) =
      .thumb (coverFitRect img.width img.height)) ∧
    introFrameDraw (some ⟨true⟩) none = .background ∧
    introFrameDraw none none = .background :=
  ⟨fun _ => rfl, fun _ => ⟨rfl, rfl⟩, rfl, rfl⟩

/-! ## C10 — curated topic picker -/

/-- C10: on a non-empty database the picker never returns null: with at least
one unused topic it returns a topic drawn from the unused ones and persists
the history with that id appended; with every topic used it resets the
persisted history to empty and returns a topic drawn from the whole database
without marking it used. -/
theorem C10_unused_topic_picker (db : List ContentTopic) (usedIds : List String)
    (r : ℕ) (_hdb : db ≠ []) :
    (availableTopics db usedIds ≠ [] → r < (availableTopics db usedIds).length →
      ∃ t, getUnusedTopic db usedIds r = ⟨some t, usedIds ++ [t.id]⟩ ∧
        t ∈ availableTopics db usedIds) ∧
    (availableTopics db usedIds = [] → r < db.length →
      ∃ t, getUnusedTopic db usedIds r = ⟨some t, []⟩ ∧ t ∈ db) ∧
    ((availableTopics db usedIds ≠ [] ∧ r < (availableTopics db usedIds).length ∨
      availableTopics db usedIds = [] ∧ r < db.length) →
      (getUnusedTopic db usedIds r).topic ≠ none) := by
  have hcase1 : availableTopics db usedIds ≠ [] →
      r < (availableTopics db usedIds).length →
      ∃ t, getUnusedTopic db usedIds r = ⟨some t, usedIds ++ [t.id]⟩ ∧
        t ∈ availableTopics db usedIds := by
    intro hne hr
    have hlen : (availableTopics db usedIds).length ≠ 0 := by
      simpa [List.length_eq_zero] using hne
    unfold getUnusedTopic
    rw [if_neg hlen, List.get?_eq_get hr]
    exact ⟨_, rfl, List.get_mem _ r hr⟩
  have hcase2 : availableTopics db usedIds = [] → r < db.length →
      ∃ t, getUnusedTopic db usedIds r = ⟨some t, []⟩ ∧ t ∈ db := by
    intro hav hr
    unfold getUnusedTopic
    rw [if_pos (by simp [hav]), List.get?_eq_get hr]
    exact ⟨_, rfl, List.get_mem _ r hr⟩
  refine ⟨hcase1, hcase2, ?_⟩
  rintro (⟨hne, hr⟩ | ⟨hav, hr⟩)
  · obtain ⟨t, ht, _⟩ := hcase1 hne hr
    rw [ht]
    exact fun hc => Option.noConfusion hc
  · obtain ⟨t, ht, _⟩ := hcase2 hav hr
    rw [ht]
    exact fun hc => Option.noConfusion hc

/-- C10 witness: with `t1` already used, the picker returns `t2` and appends
it to the history; with both used, it resets the history and returns `t1`. -/
theorem C10_witness :
    getUnusedTopic sampleDb ["t1"] 0 =
      ⟨some ⟨"t2", "Kakatiya water science"⟩, ["t1", "t2"]⟩ ∧
    getUnusedTopic sampleDb ["t1", "t2"] 0 =
      ⟨some ⟨"t1", "Ashoka's lost edicts"⟩, []⟩ := by
  have h1 := (C10_unused_topic_picker sampleDb ["t1"] 0 (by decide)).1
    (by decide) (by decide)
  have h2 := (C10_unused_topic_picker sampleDb ["t1", "t2"] 0 (by decide)).2.1
    (by decide) (by decide)
  constructor
  · obtain ⟨t, ht, hmem⟩ := h1
    have : t = ⟨"t2", "Kakatiya water science"⟩ := by
      have hav : availableTopics sampleDb ["t1"] =
          [⟨"t2", "Kakatiya water science"⟩] := by decide
      rw [hav] at hmem
      simpa using hmem
    rw [this] at ht
    exact ht
  · obtain ⟨t, ht, hmem⟩ := h2
    have hx : getUnusedTopic sampleDb ["t1", "t2"] 0 =
        ⟨some ⟨"t1", "Ashoka's lost edicts"⟩, []⟩ := by decide
    exact hx

/-! ## C8 — failure routing across stages -/

/-- C8 counterexample: a manual-override discovery failure survives the retry
policy during Researching, yet the run does not transition to Idle — the
error is absorbed and the stage falls back to the autonomous strategy, which
here proceeds straight to Scripting. -/
theorem C8_counterexample :
    researchStep true (.fail "Invalid argument") (.ok [sampleTopic]) =
      .proceedScripting sampleTopic ∧
    researchStep true (.fail "Invalid argument") (.ok [sampleTopic]) ≠
      .abortIdle := by
  exact ⟨by decide, by decide⟩

/-- C8 (amended): a surviving error in the autonomous discovery call or in
script generation logs the error and moves the stage to IDLE; a surviving
manual-override discovery failure instead falls back to the autonomous
strategy; a surviving asset-generation error (other than intro-video, which
leaves the status untouched) and any render/upload error log and move to
REVIEW; a render/upload failure whose message includes `"401"` or `"auth"`
clears the stored credential before the move to REVIEW, and otherwise the
credential is kept. -/
theorem C8_failure_routing (s : AppState) (msg : String) :
    ((researchCatchHandler s msg).status = .IDLE ∧
     (researchCatchHandler s msg).logs =
       s.logs ++ [⟨"Research failed: " ++ msg, .error⟩]) ∧
    ((scriptingCatchHandler s msg).status = .IDLE ∧
     (scriptingCatchHandler s msg).logs =
       s.logs ++ [⟨"Scripting failed: " ++ msg, .error⟩]) ∧
    ((assetsCatchHandler s msg).status = .REVIEW ∧
     (assetsCatchHandler s msg).logs =
       s.logs ++ [⟨"Asset generation failed: " ++ msg, .error⟩]) ∧
    (introVideoCatchHandler s msg).status = s.status ∧
    ((uploadCatchHandler s msg).status = .REVIEW ∧
     ((strIncludes msg "401" || strIncludes msg "auth") = true →
       (uploadCatchHandler s msg).ytToken = none) ∧
     ((strIncludes msg "401" || strIncludes msg "auth") = false →
       (uploadCatchHandler s msg).ytToken = s.ytToken)) ∧
    (∀ (failMsg : String) (autoResult : CallOutcome (List TrendTopic)),
      researchStep true (.fail failMsg) autoResult = autoResearchStep autoResult) := by
  refine ⟨⟨rfl, rfl⟩, ⟨rfl, rfl⟩, ⟨rfl, rfl⟩, rfl, ⟨?_, ?_, ?_⟩, fun _ _ => rfl⟩
  · unfold uploadCatchHandler
    split
    · rfl
    · rfl
  · intro h
    unfold uploadCatchHandler
    rw [if_pos h]
  · intro h
    unfold uploadCatchHandler
    rw [if_neg (by simp [h])]
    rfl

/-- C8 witness: a 401 upload failure at the sample uploading state clears the
token and lands in REVIEW; a plain network failure keeps the token. -/
theorem C8_witness :
    (uploadCatchHandler sampleUploadingState "Upload failed with 401").status =
      .REVIEW ∧
    (uploadCatchHandler sampleUploadingState "Upload failed with 401").ytToken =
      none ∧
    (uploadCatchHandler sampleUploadingState "connection reset").ytToken =
      sampleUploadingState.ytToken := by
  have h1 := (C8_failure_routing sampleUploadingState "Upload failed with 401").2.2.2.2.1
  have h2 := (C8_failure_routing sampleUploadingState "connection reset").2.2.2.2.1
  exact ⟨h1.1, h1.2.1 (by decide), h2.2.2 (by decide)⟩

/-! ## C4 — topic selection -/

theorem insertDesc_head_cons (a b : TrendTopic) (bs : List TrendTopic) :
    (insertDesc a (b :: bs)).head? =
      some (if b.viralityScore ≤ a.viralityScore then a else b) := by
  unfold insertDesc
  split
  · rfl
  · rfl

theorem head_sortByViralityDesc (x : TrendTopic) (ys : List TrendTopic) :
    (sortByViralityDesc (x :: ys)).head? = some (pickMax x ys) := by
  induction ys generalizing x with
  | nil => rfl
  | cons y ys ih =>
    have hcons : sortByViralityDesc (x :: y :: ys) =
        insertDesc x (sortByViralityDesc (y :: ys)) := rfl
    obtain ⟨tl, hlist⟩ : ∃ tl, sortByViralityDesc (y :: ys) = pickMax y ys :: tl := by
      rcases hs : sortByViralityDesc (y :: ys) with _ | ⟨hd, tl⟩
      · have hih := ih y
        rw [hs] at hih
        exact absurd hih (by simp)
      · have hih := ih y
        rw [hs] at hih
        simp only [List.head?_cons, Option.some.injEq] at hih
        exact ⟨tl, by rw [hih]⟩
    rw [hcons, hlist, insertDesc_head_cons]
    have hpm : pickMax x (y :: ys) =
        if x.viralityScore < (pickMax y ys).viralityScore then pickMax y ys else x := rfl
    rw [hpm]
    rcases le_or_lt (pickMax y ys).viralityScore x.viralityScore with h | h
    · rw [if_pos h, if_neg (not_lt.mpr h)]
    · rw [if_neg (not_le.mpr h), if_pos h]

theorem pickMax_mem (x : TrendTopic) (ys : List TrendTopic) :
    pickMax x ys ∈ x :: ys := by
  induction ys generalizing x with
  | nil => simp [pickMax]
  | cons y ys ih =>
    unfold pickMax
    split
    · exact List.mem_cons_of_mem x (ih y)
    · exact List.mem_cons_self x _

theorem pickMax_maximal (x : TrendTopic) (ys : List TrendTopic) :
    ∀ u ∈ x :: ys, u.viralityScore ≤ (pickMax x ys).viralityScore := by
  induction ys generalizing x with
  | nil =>
    intro u hu
    rw [List.mem_singleton.mp hu]
    simp [pickMax]
  | cons y ys ih =>
    intro u hu
    unfold pickMax
    rcases List.mem_cons.mp hu with rfl | hu'
    · split
      · rename_i h
        exact le_of_lt h
      · exact le_refl _
    · split
      · exact ih y u hu'
      · rename_i h
        exact le_trans (ih y u hu') (not_lt.mp h)

theorem pickMax_first (x : TrendTopic) (ys : List TrendTopic) :
    ∃ l₁ l₂, x :: ys = l₁ ++ pickMax x ys :: l₂ ∧
      ∀ u ∈ l₁, u.viralityScore < (pickMax x ys).viralityScore := by
  induction ys generalizing x with
  | nil => exact ⟨[], [], by simp [pickMax], by simp⟩
  | cons y ys ih =>
    unfold pickMax
    split
    · rename_i h
      obtain ⟨l₁, l₂, heq, hlt⟩ := ih y
      refine ⟨x :: l₁, l₂, ?_, ?_⟩
      · rw [List.cons_append, ← heq]
      · intro u hu
        rcases List.mem_cons.mp hu with rfl | hu'
        · exact h
        · exact hlt u hu'
    · exact ⟨[], y :: ys, rfl, by simp⟩

/-- C4 counterexample: for the manual-override path, a candidate list whose
first element has the strictly lowest score still yields the first element:
the code takes `topics[0]` there, not the virality maximum (which the
autonomous path does take). -/
theorem C4_counterexample :
    selectManualTopic [lowTopic, highTopic] = some lowTopic ∧
    highTopic ∈ [lowTopic, highTopic] ∧
    lowTopic.viralityScore < highTopic.viralityScore ∧
    selectAutoTopic [lowTopic, highTopic] = some highTopic := by
  exact ⟨rfl, by decide, by decide, by decide⟩

/-- C4 (amended): for a non-empty candidate list, the autonomous path selects
a candidate of maximum `viralityScore`, ties resolved to the earliest in
returned order (every strictly earlier candidate has a strictly smaller
score); the manual-override forced-concept path selects the first returned
candidate regardless of score. -/
theorem C4_topic_selection (topics : List TrendTopic) (x : TrendTopic)
    (rest : List TrendTopic) (htop : topics = x :: rest) :
    (∃ t, selectAutoTopic topics = some t ∧ t ∈ topics ∧
      (∀ u ∈ topics, u.viralityScore ≤ t.viralityScore) ∧
      ∃ l₁ l₂, topics = l₁ ++ t :: l₂ ∧
        ∀ u ∈ l₁, u.viralityScore < t.viralityScore) ∧
    selectManualTopic topics = some x := by
  subst htop
  exact ⟨⟨pickMax x rest, head_sortByViralityDesc x rest, pickMax_mem x rest,
    pickMax_maximal x rest, pickMax_first x rest⟩, rfl⟩

/-- C4 witness: the theorem instantiated on the concrete two-candidate list. -/
theorem C4_witness :
    (∃ t, selectAutoTopic [lowTopic, highTopic] = some t ∧
      t ∈ [lowTopic, highTopic] ∧
      ∀ u ∈ [lowTopic, highTopic], u.viralityScore ≤ t.viralityScore) ∧
    selectManualTopic [lowTopic, highTopic] = some lowTopic := by
  obtain ⟨⟨t, hsel, hmem, hmax, _⟩, hman⟩ :=
    C4_topic_selection [lowTopic, highTopic] lowTopic [highTopic] rfl
  exact ⟨⟨t, hsel, hmem, hmax⟩, hman⟩

/-! ## C3 and C7 — the retry wrapper -/

theorem backoff_shift (i f : ℕ) :
    (i + 1) * 3000 :: (List.range f).map (fun j => (i + 1 + j + 1) * 3000) =
      (List.range (f + 1)).map (fun j => (i + j + 1) * 3000) := by
  rw [List.range_succ_eq_map, List.map_cons, List.map_map]
  refine List.cons_eq_cons.mpr ⟨by omega, ?_⟩
  refine List.map_congr_left ?_
  intro a _
  simp only [Function.comp_apply]
  omega

theorem backoffDelays_eq (f : ℕ) :
    backoffDelays f = (List.range f).map (fun j => (0 + j + 1) * 3000) := by
  unfold backoffDelays
  simp

/-- One iteration of the loop on a transient, non-credential failure. -/
theorem withRetryGo_transient_step {α : Type} (op : ℕ → OpResult α) (hook : Bool)
    (fuel i n : ℕ) (delays : List ℕ) (lastErr : Option String) (msg : String)
    (hmsg : op n = .err msg) (htrans : isTransientMsg (lowerStr msg) = true)
    (henf : isEntityNotFoundMsg (lowerStr msg) = false) :
    withRetryGo op hook (fuel + 1) i n delays lastErr =
      withRetryGo op hook fuel (i + 1) (n + 1)
        (delays ++ [(i + 1) * 3000]) (some msg) := by
  simp [withRetryGo, hmsg, htrans, henf]

/-- After `f` transient failures and then a success with budget left, the
loop returns the success, having invoked the operation `f + 1` times with the
linear backoff sleeps in between. -/
theorem withRetryGo_ok {α : Type} (op : ℕ → OpResult α) (hook : Bool) (f : ℕ) :
    ∀ (fuel i n : ℕ) (delays : List ℕ) (lastErr : Option String) (a : α),
      f < fuel →
      (∀ j, j < f → TransientErrAt op (n + j)) →
      op (n + f) = .ok a →
      withRetryGo op hook fuel i n delays lastErr =
        ⟨.ok a, n + f + 1,
         delays ++ (List.range f).map (fun j => (i + j + 1) * 3000), 0⟩ := by
  induction f with
  | zero =>
    intro fuel i n delays lastErr a hf _ hok
    obtain ⟨fuel', rfl⟩ : ∃ m, fuel = m + 1 := ⟨fuel - 1, by omega⟩
    rw [Nat.add_zero] at hok
    simp [withRetryGo, hok]
  | succ f ih =>
    intro fuel i n delays lastErr a hf htr hok
    obtain ⟨fuel', rfl⟩ : ∃ m, fuel = m + 1 := ⟨fuel - 1, by omega⟩
    obtain ⟨msg, hmsg, htrans, henf⟩ := htr 0 (Nat.succ_pos f)
    rw [Nat.add_zero] at hmsg
    rw [withRetryGo_transient_step op hook fuel' i n delays lastErr msg hmsg
      htrans henf]
    rw [ih fuel' (i + 1) (n + 1) (delays ++ [(i + 1) * 3000]) (some msg) a
      (by omega)
      (fun j hj => by
        have h2 := htr (j + 1) (by omega)
        have harith : n + (j + 1) = n + 1 + j := by omega
        rwa [harith] at h2)
      (by
        have harith : n + 1 + f = n + (f + 1) := by omega
        rwa [harith])]
    have hcalls : n + 1 + f + 1 = n + (f + 1) + 1 := by omega
    rw [hcalls, List.append_assoc, List.singleton_append, backoff_shift]

/-- When every iteration fails transiently, the loop exhausts the budget,
invoking the operation exactly `fuel` times, sleeping after each failure, and
rethrows the last error. -/
theorem withRetryGo_exhaust {α : Type} (op : ℕ → OpResult α) (hook : Bool) :
    ∀ (fuel i n : ℕ) (delays : List ℕ) (lastErr : Option String),
      0 < fuel →
      (∀ j, j < fuel → TransientErrAt op (n + j)) →
      ∃ msg, op (n + fuel - 1) = .err msg ∧
        withRetryGo op hook fuel i n delays lastErr =
          ⟨.err msg, n + fuel,
           delays ++ (List.range fuel).map (fun j => (i + j + 1) * 3000), 0⟩ := by
  intro fuel
  induction fuel with
  | zero => intro i n delays lastErr h; omega
  | succ fuel ih =>
    intro i n delays lastErr _ htr
    obtain ⟨msg, hmsg, htrans, henf⟩ := htr 0 (Nat.succ_pos fuel)
    rw [Nat.add_zero] at hmsg
    rcases Nat.eq_zero_or_pos fuel with rfl | hpos
    · refine ⟨msg, by simpa using hmsg, ?_⟩
      rw [withRetryGo_transient_step op hook 0 i n delays lastErr msg hmsg
        htrans henf]
      simp [withRetryGo, List.range_succ]
    · obtain ⟨msg', hmsg', heq⟩ := ih (i + 1) (n + 1)
        (delays ++ [(i + 1) * 3000]) (some msg) hpos
        (fun j hj => by
          have h2 := htr (j + 1) (by omega)
          have harith : n + (j + 1) = n + 1 + j := by omega
          rwa [harith] at h2)
      refine ⟨msg', by
        have harith : n + 1 + fuel - 1 = n + (fuel + 1) - 1 := by omega
        rwa [harith] at hmsg', ?_⟩
      rw [withRetryGo_transient_step op hook fuel i n delays lastErr msg hmsg
        htrans henf, heq]
      have hcalls : n + 1 + fuel = n + (fuel + 1) := by omega
      rw [hcalls, List.append_assoc, List.singleton_append, backoff_shift]

/-- C3: wrapped operations whose failures all carry transient signatures are
invoked `min(failureCount+1, retryBudget)` times under the default budget of
3, with the sleep before the i-th retry (1-indexed) equal to `i × 3000` ms and
the sleeps strictly increasing; an operation failing with a non-matching
(and non-credential) message is invoked exactly once and its error rethrown
with no sleeps. -/
theorem C3_retry_policy {α : Type} (op : ℕ → OpResult α) (hook : Bool)
    (retries : ℕ) :
    defaultRetries = 3 ∧
    (∀ f a, f < retries → (∀ j, j < f → TransientErrAt op j) → op f = .ok a →
      withRetry op hook retries = ⟨.ok a, min (f + 1) retries, backoffDelays f, 0⟩) ∧
    ((∀ j, j < retries → TransientErrAt op j) → 0 < retries →
      ∃ msg, op (retries - 1) = .err msg ∧
        withRetry op hook retries = ⟨.err msg, retries, backoffDelays retries, 0⟩) ∧
    (∀ f, retries ≤ f → min (f + 1) retries = retries) ∧
    (∀ msg, 0 < retries → op 0 = .err msg →
      isTransientMsg (lowerStr msg) = false →
      isEntityNotFoundMsg (lowerStr msg) = false →
      withRetry op hook retries = ⟨.err msg, 1, [], 0⟩) ∧
    (∀ f, List.Pairwise (· < ·) (backoffDelays f)) ∧
    (∀ f j, j < f → (backoffDelays f).get? j = some ((j + 1) * 3000)) := by
  refine ⟨rfl, ?_, ?_, fun f h => by omega, ?_, ?_, ?_⟩
  · intro f a hf htr hok
    have h := withRetryGo_ok op hook f retries 0 0 [] none a hf
      (fun j hj => by simpa using htr j hj) (by simpa using hok)
    unfold withRetry
    rw [h, backoffDelays_eq]
    have hmin : min (f + 1) retries = f + 1 := by omega
    rw [hmin]
    simp
  · intro htr hpos
    obtain ⟨msg, hmsg, heq⟩ := withRetryGo_exhaust op hook retries 0 0 [] none
      hpos (fun j hj => by simpa using htr j hj)
    refine ⟨msg, by simpa using hmsg, ?_⟩
    unfold withRetry
    rw [heq, backoffDelays_eq]
    simp
  · intro msg hpos h0 htrans henf
    obtain ⟨k, rfl⟩ : ∃ k, retries = k + 1 := ⟨retries - 1, by omega⟩
    unfold withRetry
    simp [withRetryGo, h0, htrans, henf]
  · intro f
    unfold backoffDelays
    exact List.Pairwise.map _ (fun a b h => by omega) (List.pairwise_lt_range f)
  · intro f j hj
    unfold backoffDelays
    rw [List.get?_eq_getElem?, List.getElem?_map, List.getElem?_range hj]
    rfl

/-- C3 witness: two transient failures then success under the default budget:
3 invocations (`min(2+1, 3)`), sleeps `[3000, 6000]`. -/
theorem C3_witness :
    withRetry opFailTwice false 3 =
      ⟨.ok 42, min (2 + 1) 3, backoffDelays 2, 0⟩ ∧
    backoffDelays 2 = [3000, 6000] := by
  refine ⟨?_, by decide⟩
  refine (C3_retry_policy opFailTwice false 3).2.1 2 42 (by omega) ?_ rfl
  intro j hj
  interval_cases j
  · exact ⟨"Error: 503 Service Unavailable", rfl, by decide, by decide⟩
  · exact ⟨"quota exceeded for model", rfl, by decide, by decide⟩

/-- C7 counterexample: after the credential hook fires, the single extra
attempt fails with a transient `503` message — yet the wrapper stops after 2
invocations and propagates that error unclassified instead of re-entering the
retry loop (which, with budget 3 and a third call succeeding, would have
returned `ok 7`). -/
theorem C7_counterexample :
    withRetry enfOp true defaultRetries =
      ⟨.err "503 Service overloaded", 2, [], 1⟩ ∧
    isTransientMsg (lowerStr "503 Service overloaded") = true ∧
    enfOp 2 = .ok 7 ∧
    (withRetry enfOp true defaultRetries).result ≠ .ok 7 := by
  exact ⟨by decide, by decide, by decide, by decide⟩

/-- C7 (amended): on a first failure carrying the "entity not found"
signature with the hook available, the hook runs once and the operation is
retried exactly one extra time outside the budget; that extra attempt's
outcome is final — a success is returned and any failure (transient or not)
propagates immediately, with no sleeps and no re-entry into the retry loop. -/
theorem C7_credential_hook {α : Type} (op : ℕ → OpResult α) (retries : ℕ)
    (msg : String) (hr : 0 < retries) (h0 : op 0 = .err msg)
    (henf : isEntityNotFoundMsg (lowerStr msg) = true) :
    withRetry op true retries = ⟨op 1, 2, [], 1⟩ ∧
    (∀ a, op 1 = .ok a → (withRetry op true retries).result = .ok a) ∧
    (∀ m, op 1 = .err m → (withRetry op true retries).result = .err m) := by
  obtain ⟨k, rfl⟩ : ∃ k, retries = k + 1 := ⟨retries - 1, by omega⟩
  have h : withRetry op true (k + 1) = ⟨op 1, 2, [], 1⟩ := by
    unfold withRetry
    simp [withRetryGo, h0, henf]
  exact ⟨h, fun a ha => by rw [h, ha], fun m hm => by rw [h, hm]⟩

/-- C7 witness: the hook path applied to the concrete operation. -/
theorem C7_witness : withRetry enfOp true 3 = ⟨enfOp 1, 2, [], 1⟩ :=
  (C7_credential_hook enfOp 3 "Requested entity was not found."
    (by omega) rfl (by decide)).1

end ViralTube
